import Mathlib

/-!
Shallow embedding of the to-do-list backend (src/src/to_do_list), a
FastAPI + SQLModel application.  The row-store is modelled as a list of
task rows; each endpoint (main.py) becomes a function from the store and
the request parameters to an `Except` of an error or a result.  Request
body validation performed by pydantic at the endpoint boundary is part
of the endpoint function.
-/

namespace ToDoList

/-- models.py `TaskStatus(str, Enum)`: new = "New", in_progress = "In Progress",
completed = "Completed". -/
inductive TaskStatus where
  | new : TaskStatus
  | in_progress : TaskStatus
  | completed : TaskStatus
deriving DecidableEq, Repr

/-- The string value stored for each enum member (models.py lines 41-44);
this is what the database column holds and what ORDER BY status compares. -/
def statusVal : TaskStatus → String
  | TaskStatus.new => "New"
  | TaskStatus.in_progress => "In Progress"
  | TaskStatus.completed => "Completed"

/-- models.py `Task(TaskBase, table=True)`: id, title, description, status,
user_id.  The id is a Nat (assigned by the database on insert). -/
structure Task where
  id : Nat
  title : String
  description : Option String
  status : TaskStatus
  user_id : Nat
deriving DecidableEq, Repr

/-- models.py `User(UserBase, table=True)`: id, first_name, last_name,
username, hashed_password. -/
structure User where
  id : Nat
  first_name : String
  last_name : Option String
  username : String
  hashed_password : String
deriving DecidableEq, Repr

/-- The HTTP error outcomes raised by the endpoints in main.py:
404 NotFound, 403 Forbidden, 401 Unauthenticated, 422 request validation
failure (pydantic / Query constraints), 500 for a commit that violates a
database constraint. -/
inductive ApiError where
  | NotFound : ApiError
  | Forbidden : ApiError
  | Unauthenticated : ApiError
  | ValidationError : ApiError
  | InternalError : ApiError
deriving DecidableEq, Repr

/-- The task table. -/
abbrev DB := List Task

/-- `session.get(Task, task_id)`: primary-key lookup. -/
def dbGet (db : DB) (tid : Nat) : Option Task :=
  db.find? (fun t => t.id == tid)

/-- `session.add(db_task); session.commit()` for a row already in the
table: the row with that primary key now holds the new values. -/
def dbSet (db : DB) (t : Task) : DB :=
  db.map (fun x => if x.id == t.id then t else x)

/-- models.py TaskBase field constraint: `title: str = Field(min_length=3,
max_length=54)`; enforced by pydantic when a TaskCreate body is parsed. -/
def validTitle (s : String) : Bool :=
  decide (3 ≤ s.length) && decide (s.length ≤ 54)

/-- models.py `TaskCreate(TaskBase)`: title, optional description, status
defaulting to new.  It has no owner / user_id field. -/
structure TaskCreate where
  title : String
  description : Option String
  status : TaskStatus
deriving DecidableEq, Repr

/-- Parsing a create-task request body into a TaskCreate.  TaskCreate has
no owner field, and pydantic by default ignores unknown body fields, so a
client-supplied `owner_field` (for example a user_id key in the JSON body)
is dropped. -/
def parseTaskCreate (title : String) (description : Option String)
    (status : Option TaskStatus) (owner_field : Option Nat) : TaskCreate :=
  { title := title, description := description,
    status := status.getD TaskStatus.new }

/-- main.py `create_task_for_user` (POST /tasks/, lines 89-103): pydantic
validates the TaskCreate body (title length 3..54), then
`Task.model_validate(task, update={"user_id": current_user.id})` builds the
row with user_id stamped from the authenticated user, and the insert
assigns a fresh id (`newId` here). -/
def create_task_for_user (db : DB) (uid : Nat) (tc : TaskCreate)
    (newId : Nat) : Except ApiError (Task × DB) :=
  if validTitle tc.title then
    let t : Task := { id := newId, title := tc.title,
                      description := tc.description, status := tc.status,
                      user_id := uid }
    Except.ok (t, db ++ [t])
  else Except.error ApiError.ValidationError

/-- A field of a PATCH body: either absent from the request
(`exclude_unset=True` drops it) or explicitly present with a value. -/
inductive Patch (α : Type) where
  | unset : Patch α
  | given : α → Patch α
deriving DecidableEq, Repr

/-- models.py `TaskUpdate` (lines 63-66): every field is
`Optional[...] = None`, so each may be absent, explicitly null, or a
value.  Note: no length constraint on title. -/
structure TaskUpdate where
  title : Patch (Option String)
  description : Patch (Option String)
  status : Patch (Option TaskStatus)
deriving DecidableEq, Repr

/-- New value of a non-nullable column under a patch field: absent keeps
the old value; an explicit null would be written by `setattr` but the
commit then violates the NOT NULL constraint, so it yields no row. -/
def patchNonNull {α : Type} : Patch (Option α) → α → Option α
  | Patch.unset, old => some old
  | Patch.given none, _ => none
  | Patch.given (some v), _ => some v

/-- New value of a nullable column (description) under a patch field. -/
def patchNullable {α : Type} : Patch (Option α) → Option α → Option α
  | Patch.unset, old => old
  | Patch.given v, _ => v

/-- main.py lines 177-179: `task_data = task_update.model_dump(exclude_unset=True)`
followed by `setattr(db_task, key, value)` for each present field, then
commit.  Returns none when the commit would violate NOT NULL (title or
status explicitly set to null). -/
def apply_task_update (t : Task) (u : TaskUpdate) : Option Task :=
  match patchNonNull u.title t.title, patchNonNull u.status t.status with
  | some newTitle, some newStatus =>
      some { t with title := newTitle,
                    description := patchNullable u.description t.description,
                    status := newStatus }
  | _, _ => none

/-- main.py `get_single_task` (GET /tasks/{id}, lines 140-157): lookup,
404 if absent, 403 if owned by another user, else the task. -/
def get_single_task (db : DB) (uid tid : Nat) : Except ApiError Task :=
  match dbGet db tid with
  | none => Except.error ApiError.NotFound
  | some t =>
    if t.user_id != uid then Except.error ApiError.Forbidden
    else Except.ok t

/-- main.py `update_task` (PATCH /tasks/{id}, lines 159-184): lookup,
404 if absent, 403 if owned by another user, else apply the patch and
commit. -/
def update_task (db : DB) (uid tid : Nat) (u : TaskUpdate) :
    Except ApiError (Task × DB) :=
  match dbGet db tid with
  | none => Except.error ApiError.NotFound
  | some t =>
    if t.user_id != uid then Except.error ApiError.Forbidden
    else
      match apply_task_update t u with
      | none => Except.error ApiError.InternalError
      | some t2 => Except.ok (t2, dbSet db t2)

/-- main.py `delete_task` (DELETE /tasks/{id}, lines 186-205): lookup,
404 if absent, 403 if owned by another user, else delete the row. -/
def delete_task (db : DB) (uid tid : Nat) : Except ApiError DB :=
  match dbGet db tid with
  | none => Except.error ApiError.NotFound
  | some t =>
    if t.user_id != uid then Except.error ApiError.Forbidden
    else Except.ok (db.filter (fun x => x.id != tid))

/-- main.py `complete_task` (PUT /tasks/{id}/complete, lines 208-229):
lookup, 404 if absent, 403 if owned by another user, else set status to
completed and commit. -/
def complete_task (db : DB) (uid tid : Nat) :
    Except ApiError (Task × DB) :=
  match dbGet db tid with
  | none => Except.error ApiError.NotFound
  | some t =>
    if t.user_id != uid then Except.error ApiError.Forbidden
    else
      Except.ok ({ t with status := TaskStatus.completed },
        dbSet db { t with status := TaskStatus.completed })

/-- main.py lines 118-121: `select(Task).where(Task.user_id ==
current_user.id)` then, when `status_filter` is present (the str-enum
values are non-empty strings, so Python truthiness means present),
`.where(Task.status == status_filter)`. -/
def filteredTasks (db : DB) (uid : Nat) (sf : Option TaskStatus) : DB :=
  let q := db.filter (fun t => t.user_id == uid)
  match sf with
  | some s => q.filter (fun t => t.status == s)
  | none => q

/-- Ascending comparison for an ORDER BY column of the task table: id is
an integer column, title a string column, and status is stored as its
string enum value. -/
def taskColLe (col : String) (a b : Task) : Bool :=
  if col == "id" then decide (a.id ≤ b.id)
  else if col == "title" then decide (a.title ≤ b.title)
  else decide (statusVal a.status ≤ statusVal b.status)

/-- Insert into a list sorted by `le` (model of the ordered retrieval). -/
def insertLe (le : Task → Task → Bool) (a : Task) : List Task → List Task
  | [] => [a]
  | b :: l => if le a b then a :: b :: l else b :: insertLe le a l

/-- Sort by `le` (model of ORDER BY: some sorted permutation). -/
def sortByLe (le : Task → Task → Bool) : List Task → List Task
  | [] => []
  | a :: l => insertLe le a (sortByLe le l)

/-- main.py lines 123-128: sorting applies only when `sort_by` is truthy
and in the allow-list ["id", "title", "status"]; direction is descending
exactly when `sort_order.lower() == "desc"`, ascending otherwise. -/
def sortTasks (sb : Option String) (so : String) (q : DB) : DB :=
  match sb with
  | none => q
  | some col =>
    if col == "id" || col == "title" || col == "status" then
      if so.toLower == "desc" then sortByLe (fun a b => taskColLe col b a) q
      else sortByLe (taskColLe col) q
    else q

/-- main.py line 130: `.offset(offset).limit(limit)` applied after the
filter and the sort. -/
def listPage (db : DB) (uid : Nat) (offset limit : Nat) (sb : Option String)
    (so : String) (sf : Option TaskStatus) : DB :=
  ((sortTasks sb so (filteredTasks db uid sf)).drop offset).take limit

/-- main.py `get_my_tasks` (GET /tasks/, lines 105-138).  The query
parameter `limit: int = Query(default=10, le=100)` is validated by
FastAPI before the handler runs: a limit above 100 is rejected with a
422 validation error.  Inside the handler, an empty page raises 404
(lines 132-136).  Offset and limit are modelled as Nat (the claims under
study use non-negative values only; a negative value would be rejected
by the database). -/
def get_my_tasks (db : DB) (uid : Nat) (offset limit : Nat)
    (sb : Option String) (so : String) (sf : Option TaskStatus) :
    Except ApiError DB :=
  if 100 < limit then Except.error ApiError.ValidationError
  else if (listPage db uid offset limit sb so sf).isEmpty then
    Except.error ApiError.NotFound
  else Except.ok (listPage db uid offset limit sb so sf)

/-- main.py line 109: `offset: int = 0`. -/
def default_offset : Nat := 0

/-- main.py line 110: `limit: int = Query(default=10, le=100)`. -/
def default_limit : Nat := 10

/-- The detail string of both login failure branches (main.py line 78). -/
def incorrectMsg : String := "Incorrect username or password"

/-- A login failure as seen by the caller: status code and detail. -/
structure LoginError where
  code : ApiError
  detail : String
deriving DecidableEq, Repr

/-- main.py `login_for_access_token` (POST /token, lines 66-85): look the
user up by username; `if not user or not verify_password(form_data.password,
user.hashed_password)` raise 401 with the one detail string; otherwise
issue a token for the username.  The password verifier and the token
issuer are parameters (they live in auth.py, outside the handler). -/
def login_for_access_token (users : List User)
    (verify : String → String → Bool) (issue : String → String)
    (username password : String) : Except LoginError String :=
  match users.find? (fun u => u.username == username) with
  | none =>
      Except.error { code := ApiError.Unauthenticated, detail := incorrectMsg }
  | some u =>
      if verify password u.hashed_password then Except.ok (issue u.username)
      else
        Except.error { code := ApiError.Unauthenticated, detail := incorrectMsg }

/-- Modelled from the spec: the Credential Hasher (auth.py with
`get_password_hash` and `verify_password`) is not under src/; only
tests/unit/test_auth.py imports it.  Spec section 4.1: hash is salted and
one-way, and `verify(plaintext, hash)` is true iff the plaintext, hashed
with the salt and parameters embedded in the stored hash, equals the
stored hash.  The salted derivation is modelled as a function of the salt
and the plaintext that is injective in the plaintext for a fixed salt. -/
def hashWithSalt (salt : Nat) (plaintext : String) : String :=
  toString salt ++ ":" ++ plaintext

/-- Modelled from the spec: a stored hash embeds its salt and the derived
digest. -/
structure PasswordHash where
  salt : Nat
  digest : String
deriving DecidableEq, Repr

/-- Modelled from the spec: `hash(plaintext)` draws a salt (a parameter
here) and stores it with the derivation. -/
def get_password_hash (salt : Nat) (plaintext : String) : PasswordHash :=
  { salt := salt, digest := hashWithSalt salt plaintext }

/-- Modelled from the spec: `verify(plaintext, hash)` re-derives with the
embedded salt and compares with the stored digest. -/
def verify_password (plaintext : String) (h : PasswordHash) : Bool :=
  hashWithSalt h.salt plaintext == h.digest

/-! ### Helper lemmas -/

theorem mem_insertLe {le : Task → Task → Bool} {x a : Task}
    {l : List Task} (h : a ∈ insertLe le x l) : a = x ∨ a ∈ l := by
  induction l with
  | nil => simpa [insertLe] using h
  | cons b t ih =>
    unfold insertLe at h
    by_cases hc : le x b
    · rw [if_pos hc] at h
      rcases List.mem_cons.mp h with h1 | h1
      · exact Or.inl h1
      · exact Or.inr h1
    · rw [if_neg hc] at h
      rcases List.mem_cons.mp h with h1 | h1
      · exact Or.inr (List.mem_cons.mpr (Or.inl h1))
      · rcases ih h1 with h2 | h2
        · exact Or.inl h2
        · exact Or.inr (List.mem_cons.mpr (Or.inr h2))

theorem mem_sortByLe {le : Task → Task → Bool} {a : Task}
    {l : List Task} (h : a ∈ sortByLe le l) : a ∈ l := by
  induction l with
  | nil => simp [sortByLe] at h
  | cons b t ih =>
    unfold sortByLe at h
    rcases mem_insertLe h with h1 | h1
    · exact h1 ▸ List.mem_cons_self b t
    · exact List.mem_cons.mpr (Or.inr (ih h1))

theorem length_insertLe (le : Task → Task → Bool) (x : Task) :
    ∀ l : List Task, (insertLe le x l).length = l.length + 1 := by
  intro l
  induction l with
  | nil => rfl
  | cons b t ih =>
    unfold insertLe
    by_cases hc : le x b
    · rw [if_pos hc]; rfl
    · rw [if_neg hc]; simp [ih]

theorem length_sortByLe (le : Task → Task → Bool) :
    ∀ l : List Task, (sortByLe le l).length = l.length := by
  intro l
  induction l with
  | nil => rfl
  | cons b t ih =>
    unfold sortByLe
    rw [length_insertLe, ih]
    rfl

theorem mem_sortTasks {sb : Option String} {so : String} {q : DB}
    {a : Task} (h : a ∈ sortTasks sb so q) : a ∈ q := by
  cases sb with
  | none => exact h
  | some col =>
    simp only [sortTasks] at h
    by_cases h1 : (col == "id" || col == "title" || col == "status") = true
    · rw [if_pos h1] at h
      by_cases h2 : (so.toLower == "desc") = true
      · rw [if_pos h2] at h; exact mem_sortByLe h
      · rw [if_neg h2] at h; exact mem_sortByLe h
    · rwa [if_neg h1] at h

theorem length_sortTasks (sb : Option String) (so : String) (q : DB) :
    (sortTasks sb so q).length = q.length := by
  cases sb with
  | none => rfl
  | some col =>
    simp only [sortTasks]
    by_cases h1 : (col == "id" || col == "title" || col == "status") = true
    · rw [if_pos h1]
      by_cases h2 : (so.toLower == "desc") = true
      · rw [if_pos h2, length_sortByLe]
      · rw [if_neg h2, length_sortByLe]
    · rw [if_neg h1]

theorem user_of_mem_filteredTasks {db : DB} {uid : Nat}
    {sf : Option TaskStatus} {t : Task} (h : t ∈ filteredTasks db uid sf) :
    t.user_id = uid := by
  unfold filteredTasks at h
  cases sf with
  | none => simpa using (List.mem_filter.mp h).2
  | some s =>
    have h1 := (List.mem_filter.mp h).1
    simpa using (List.mem_filter.mp h1).2

theorem id_of_dbGet {db : DB} {tid : Nat} {t : Task}
    (h : dbGet db tid = some t) : t.id = tid := by
  simpa using List.find?_some h

theorem dbGet_cons (x : Task) (l : List Task) (tid : Nat) :
    dbGet (x :: l) tid = cond (x.id == tid) (some x) (dbGet l tid) := by
  cases hx : x.id == tid <;> simp [dbGet, List.find?, hx]

theorem dbSet_cons (x : Task) (l : List Task) (t2 : Task) :
    dbSet (x :: l) t2 = (if x.id == t2.id then t2 else x) :: dbSet l t2 :=
  rfl

theorem dbGet_dbSet {db : DB} {tid : Nat} {t t2 : Task}
    (h : dbGet db tid = some t) (h2 : t2.id = tid) :
    dbGet (dbSet db t2) tid = some t2 := by
  induction db with
  | nil => simp [dbGet] at h
  | cons x l ih =>
    rw [dbGet_cons] at h
    rw [dbSet_cons]
    by_cases hx : (x.id == tid) = true
    · have hx2 : (x.id == t2.id) = true := by rw [h2]; exact hx
      rw [if_pos hx2, dbGet_cons]
      have ht2 : (t2.id == tid) = true := by simp [h2]
      rw [ht2, cond_true]
    · have hxf : (x.id == tid) = false := Bool.eq_false_iff.mpr hx
      have hx2 : ¬ (x.id == t2.id) = true := by rw [h2]; exact hx
      rw [if_neg hx2, dbGet_cons, hxf]
      rw [hxf] at h
      simp only [cond_false] at h
      simp only [cond_false]
      exact ih h

theorem dbSet_dbSet (db : DB) (t2 : Task) :
    dbSet (dbSet db t2) t2 = dbSet db t2 := by
  induction db with
  | nil => rfl
  | cons x l ih =>
    by_cases hx : (x.id == t2.id) = true
    · rw [dbSet_cons, if_pos hx, dbSet_cons]
      have ht : (t2.id == t2.id) = true := by simp
      rw [if_pos ht, ih]
    · rw [dbSet_cons, if_neg hx, dbSet_cons, if_neg hx, ih]

theorem apply_task_update_some {t t2 : Task} {u : TaskUpdate}
    (h : apply_task_update t u = some t2) :
    t2.id = t.id ∧ t2.user_id = t.user_id ∧
    (u.title = Patch.unset → t2.title = t.title) ∧
    (u.description = Patch.unset → t2.description = t.description) ∧
    (u.status = Patch.unset → t2.status = t.status) := by
  unfold apply_task_update at h
  cases hT : patchNonNull u.title t.title with
  | none =>
    cases hS : patchNonNull u.status t.status with
    | none => rw [hT, hS] at h; simp at h
    | some newStatus => rw [hT, hS] at h; simp at h
  | some newTitle =>
    cases hS : patchNonNull u.status t.status with
    | none => rw [hT, hS] at h; simp at h
    | some newStatus =>
      rw [hT, hS] at h
      simp only [Option.some.injEq] at h
      subst h
      refine ⟨rfl, rfl, ?_, ?_, ?_⟩
      · intro hu
        show newTitle = t.title
        rw [hu] at hT
        simpa [patchNonNull] using hT.symm
      · intro hu
        show patchNullable u.description t.description = t.description
        rw [hu]
        rfl
      · intro hu
        show newStatus = t.status
        rw [hu] at hS
        simpa [patchNonNull] using hS.symm

/-- A sample task owned by user 1. -/
def exTaskA : Task :=
  { id := 1, title := "abc", description := none,
    status := TaskStatus.new, user_id := 1 }

/-- A sample task owned by user 2. -/
def exTaskB : Task :=
  { id := 2, title := "abc", description := none,
    status := TaskStatus.new, user_id := 2 }

/-- The PATCH body with no field present. -/
def noUpdate : TaskUpdate :=
  { title := Patch.unset, description := Patch.unset, status := Patch.unset }

/-! ### Claims -/

/-- C1: for every authenticated user and every combination of offset,
limit, sort_by, sort_order and status_filter parameters, the list
operation (GET /tasks/) returns only tasks whose user_id equals the
authenticated user id; no task owned by another user ever appears in the
result. -/
theorem C1_list_returns_only_own_tasks
    (db : DB) (uid offset limit : Nat) (sb : Option String) (so : String)
    (sf : Option TaskStatus) (ts : DB)
    (h : get_my_tasks db uid offset limit sb so sf = Except.ok ts)
    (t : Task) (ht : t ∈ ts) : t.user_id = uid := by
  unfold get_my_tasks at h
  by_cases hl : 100 < limit
  · rw [if_pos hl] at h
    exact absurd h (by simp)
  · rw [if_neg hl] at h
    by_cases hp : ((listPage db uid offset limit sb so sf).isEmpty = true)
    · rw [if_pos hp] at h
      exact absurd h (by simp)
    · rw [if_neg hp] at h
      have hts : listPage db uid offset limit sb so sf = ts := by
        simpa using h
      rw [← hts] at ht
      unfold listPage at ht
      have h1 := List.mem_of_mem_take ht
      have h2 := List.mem_of_mem_drop h1
      exact user_of_mem_filteredTasks (mem_sortTasks h2)

/-- C1 witness: a concrete run of the list endpoint, on a store holding
one task of user 1. -/
theorem C1_witness : exTaskA.user_id = 1 :=
  C1_list_returns_only_own_tasks [exTaskA] 1 0 10 none "asc" none [exTaskA]
    rfl exTaskA (List.mem_singleton.mpr rfl)

/-- C2: for every single-task operation (GET, PATCH, DELETE on
/tasks/{id} and PUT /tasks/{id}/complete), existence is checked before
ownership: if no task with the given id exists the operation fails with
NotFound, and if the task exists but its user_id differs from the
authenticated user id the operation fails with Forbidden; a missing task
never yields Forbidden. -/
theorem C2_existence_before_ownership
    (db : DB) (uid tid : Nat) (u : TaskUpdate) :
    (dbGet db tid = none →
      get_single_task db uid tid = Except.error ApiError.NotFound ∧
      update_task db uid tid u = Except.error ApiError.NotFound ∧
      delete_task db uid tid = Except.error ApiError.NotFound ∧
      complete_task db uid tid = Except.error ApiError.NotFound) ∧
    (∀ t : Task, dbGet db tid = some t → t.user_id ≠ uid →
      get_single_task db uid tid = Except.error ApiError.Forbidden ∧
      update_task db uid tid u = Except.error ApiError.Forbidden ∧
      delete_task db uid tid = Except.error ApiError.Forbidden ∧
      complete_task db uid tid = Except.error ApiError.Forbidden) := by
  constructor
  · intro h
    refine ⟨?_, ?_, ?_, ?_⟩ <;>
      simp [get_single_task, update_task, delete_task, complete_task, h]
  · intro t h hne
    have hb : (t.user_id != uid) = true := by simpa using hne
    refine ⟨?_, ?_, ?_, ?_⟩ <;>
      simp [get_single_task, update_task, delete_task, complete_task, h, hb]

/-- C2 witness: concrete NotFound (task 5 absent) and Forbidden (task 2
exists but is owned by user 2, caller is user 1) outcomes. -/
theorem C2_witness :
    get_single_task [] 1 5 = Except.error ApiError.NotFound ∧
    get_single_task [exTaskB] 1 2 = Except.error ApiError.Forbidden :=
  ⟨((C2_existence_before_ownership [] 1 5 noUpdate).1 rfl).1,
   ((C2_existence_before_ownership [exTaskB] 1 2 noUpdate).2 exTaskB rfl
      (by decide)).1⟩

/-- C3: for every create-task request by an authenticated user, the
created task user_id equals the authenticated user id, regardless of any
owner field supplied in the request body; the client cannot choose a
different owner. -/
theorem C3_create_stamps_owner
    (db : DB) (uid : Nat) (title : String) (description : Option String)
    (st : Option TaskStatus) (owner_field : Option Nat) (newId : Nat)
    (t : Task) (db2 : DB)
    (h : create_task_for_user db uid
          (parseTaskCreate title description st owner_field) newId =
        Except.ok (t, db2)) :
    t.user_id = uid := by
  unfold create_task_for_user at h
  by_cases hv :
      (validTitle (parseTaskCreate title description st owner_field).title)
        = true
  · rw [if_pos hv] at h
    simp only [Except.ok.injEq, Prod.mk.injEq] at h
    rw [← h.1]
  · rw [if_neg hv] at h
    exact absurd h (by simp)

/-- The task produced by the C3 witness request. -/
def exTaskC : Task :=
  { id := 1, title := "abc", description := none,
    status := TaskStatus.new, user_id := 7 }

/-- C3 witness: a body carrying owner field 999 still yields a task
stamped with the authenticated user 7. -/
theorem C3_witness : exTaskC.user_id = 7 :=
  C3_create_stamps_owner [] 7 "abc" none none (some 999) 1 exTaskC
    [exTaskC] rfl

/-- C4: for every existing task owned by the caller, the complete
operation sets the task status to completed regardless of its prior
status, and is idempotent: applying it again returns the same task and
the same store. -/
theorem C4_complete_idempotent
    (db : DB) (uid tid : Nat) (t2 : Task) (db2 : DB)
    (h : complete_task db uid tid = Except.ok (t2, db2)) :
    t2.status = TaskStatus.completed ∧
    complete_task db2 uid tid = Except.ok (t2, db2) := by
  unfold complete_task at h
  cases hg : dbGet db tid with
  | none => rw [hg] at h; simp at h
  | some t =>
    rw [hg] at h
    obtain ⟨tId, tTitle, tDesc, tSt, tUid⟩ := t
    dsimp only at h
    by_cases ho : (tUid != uid) = true
    · rw [if_pos ho] at h
      simp at h
    · rw [if_neg ho] at h
      simp only [Except.ok.injEq, Prod.mk.injEq] at h
      obtain ⟨ht2, hdb2⟩ := h
      subst ht2
      subst hdb2
      refine ⟨rfl, ?_⟩
      have hid : tId = tid := by simpa using id_of_dbGet hg
      have hget2 :
          dbGet (dbSet db
              (Task.mk tId tTitle tDesc TaskStatus.completed tUid)) tid =
            some (Task.mk tId tTitle tDesc TaskStatus.completed tUid) :=
        dbGet_dbSet hg hid
      unfold complete_task
      rw [hget2]
      dsimp only
      rw [if_neg ho, dbSet_dbSet]

/-- The C4 witness task after completion. -/
def exTaskADone : Task :=
  { id := 1, title := "abc", description := none,
    status := TaskStatus.completed, user_id := 1 }

/-- C4 witness: completing task 1 of user 1 marks it completed, and
completing it again returns the same task and the same store. -/
theorem C4_witness :
    exTaskADone.status = TaskStatus.completed ∧
    complete_task [exTaskADone] 1 1 =
      Except.ok (exTaskADone, [exTaskADone]) :=
  C4_complete_idempotent [exTaskA] 1 1 exTaskADone [exTaskADone] rfl

/-- C5 counterexample: the claim says a limit of 150 is clamped to 100
and the request succeeds; the code rejects it with a validation error
(the le=100 bound on the limit query parameter rejects, it does not
clamp), so no success result exists. -/
theorem C5_counterexample :
    get_my_tasks [exTaskA] 1 0 150 none "asc" none =
      Except.error ApiError.ValidationError ∧
    ¬ ∃ ts : DB, get_my_tasks [exTaskA] 1 0 150 none "asc" none =
      Except.ok ts := by
  have h0 : get_my_tasks [exTaskA] 1 0 150 none "asc" none =
      Except.error ApiError.ValidationError := rfl
  refine ⟨h0, ?_⟩
  rintro ⟨ts, h⟩
  rw [h0] at h
  exact Except.noConfusion h

/-- C5 amended: the defaults are limit 10 and offset 0; a limit above
100 is rejected with a validation error rather than clamped; with a
valid limit, an offset at or beyond the number of matching tasks yields
no page — the endpoint answers NotFound rather than an empty page. -/
theorem C5_amended_pagination
    (db : DB) (uid offset limit : Nat) (sb : Option String) (so : String)
    (sf : Option TaskStatus) :
    (100 < limit →
      get_my_tasks db uid offset limit sb so sf =
        Except.error ApiError.ValidationError) ∧
    (limit ≤ 100 → (filteredTasks db uid sf).length ≤ offset →
      get_my_tasks db uid offset limit sb so sf =
        Except.error ApiError.NotFound) ∧
    default_limit = 10 ∧ default_offset = 0 := by
  refine ⟨?_, ?_, rfl, rfl⟩
  · intro hl
    unfold get_my_tasks
    rw [if_pos hl]
  · intro hl hoff
    have hdrop : (sortTasks sb so (filteredTasks db uid sf)).drop offset = [] :=
      List.drop_eq_nil_of_le (by rw [length_sortTasks]; exact hoff)
    have hpage : listPage db uid offset limit sb so sf = [] := by
      unfold listPage
      rw [hdrop, List.take_nil]
    unfold get_my_tasks
    rw [if_neg (by omega : ¬ 100 < limit), hpage]
    rfl

/-- C5 witness: limit 150 is rejected, and offset 5 on a store with one
matching task yields NotFound. -/
theorem C5_witness :
    get_my_tasks [exTaskB] 2 0 150 none "asc" none =
      Except.error ApiError.ValidationError ∧
    get_my_tasks [exTaskB] 2 5 10 none "asc" none =
      Except.error ApiError.NotFound :=
  ⟨(C5_amended_pagination [exTaskB] 2 0 150 none "asc" none).1 (by decide),
   (C5_amended_pagination [exTaskB] 2 5 10 none "asc" none).2.1 (by decide)
     (by decide)⟩

/-- C6: for every authenticated list request whose filtered, sorted and
paginated result sequence is empty, the list endpoint does not return an
empty sequence but fails with NotFound. -/
theorem C6_empty_page_yields_notfound
    (db : DB) (uid offset limit : Nat) (sb : Option String) (so : String)
    (sf : Option TaskStatus) (hl : limit ≤ 100)
    (hp : listPage db uid offset limit sb so sf = []) :
    get_my_tasks db uid offset limit sb so sf =
      Except.error ApiError.NotFound := by
  unfold get_my_tasks
  rw [if_neg (by omega : ¬ 100 < limit), hp]
  rfl

/-- C6 witness: a user with no tasks receives NotFound from the list
endpoint, not an empty list. -/
theorem C6_witness :
    get_my_tasks [] 3 0 10 none "asc" none =
      Except.error ApiError.NotFound :=
  C6_empty_page_yields_notfound [] 3 0 10 none "asc" none (by decide) rfl

/-- C7: every failing login — whether the username matches no user or
the password does not verify against the stored hash — produces the
same Unauthenticated error with the identical detail message, so the
two causes are indistinguishable to the caller. -/
theorem C7_uniform_login_failure
    (users : List User) (verify : String → String → Bool)
    (issue : String → String) (username password : String) :
    (users.find? (fun v => v.username == username) = none →
      login_for_access_token users verify issue username password =
        Except.error { code := ApiError.Unauthenticated,
                       detail := incorrectMsg }) ∧
    (∀ u : User, users.find? (fun v => v.username == username) = some u →
      verify password u.hashed_password = false →
      login_for_access_token users verify issue username password =
        Except.error { code := ApiError.Unauthenticated,
                       detail := incorrectMsg }) := by
  constructor
  · intro h
    unfold login_for_access_token
    rw [h]
  · intro u h hv
    unfold login_for_access_token
    rw [h]
    dsimp only
    rw [hv]
    rfl

/-- A registered sample user. -/
def exUser : User :=
  { id := 1, first_name := "Bo", last_name := none, username := "bob",
    hashed_password := "h" }

/-- C7 witness: the unknown-username failure and the wrong-password
failure produce the identical error value. -/
theorem C7_witness :
    login_for_access_token [] (fun _ _ => false) (fun s => s)
        "alice" "pw" =
      Except.error { code := ApiError.Unauthenticated,
                     detail := incorrectMsg } ∧
    login_for_access_token [exUser] (fun _ _ => false) (fun s => s)
        "bob" "pw" =
      Except.error { code := ApiError.Unauthenticated,
                     detail := incorrectMsg } :=
  ⟨(C7_uniform_login_failure [] (fun _ _ => false) (fun s => s) "alice"
      "pw").1 rfl,
   (C7_uniform_login_failure [exUser] (fun _ _ => false) (fun s => s) "bob"
      "pw").2 exUser rfl rfl⟩

theorem string_append_cancel_left {s a b : String} (h : s ++ a = s ++ b) :
    a = b := by
  have hd := congrArg String.data h
  simp only [String.data_append] at hd
  exact String.ext (List.append_cancel_left hd)

/-- C8: for every password p, verify(p, hash(p)) returns true, and for
every password p2 different from p1, verify(p2, hash(p1)) returns false
(round trip of the credential hasher). -/
theorem C8_hash_verify_roundtrip (salt : Nat) (p1 p2 : String) :
    verify_password p1 (get_password_hash salt p1) = true ∧
    (p2 ≠ p1 → verify_password p2 (get_password_hash salt p1) = false) := by
  constructor
  · simp [verify_password, get_password_hash]
  · intro hne
    unfold verify_password get_password_hash hashWithSalt
    dsimp only
    rw [beq_eq_false_iff_ne]
    intro hc
    exact hne (string_append_cancel_left hc)

/-- C8 witness: the concrete pair of passwords used by the unit test
test_verify_password. -/
theorem C8_witness :
    verify_password "plain_password" (get_password_hash 3 "plain_password")
      = true ∧
    verify_password "wrong_password" (get_password_hash 3 "plain_password")
      = false :=
  ⟨(C8_hash_verify_roundtrip 3 "plain_password" "wrong_password").1,
   (C8_hash_verify_roundtrip 3 "plain_password" "wrong_password").2
     (by decide)⟩

/-- The PATCH body setting only the title, to the 2-character "ab". -/
def shortTitleUpdate : TaskUpdate :=
  { title := Patch.given (some "ab"), description := Patch.unset,
    status := Patch.unset }

/-- The task of exTaskA after the short-title PATCH. -/
def exTaskAShort : Task :=
  { id := 1, title := "ab", description := none,
    status := TaskStatus.new, user_id := 1 }

/-- C9 counterexample: TaskUpdate carries no length constraint, so a
PATCH by the owner setting the 2-character title succeeds, leaving a
task whose title is shorter than 3 characters — the claimed invariant is
not preserved by the update operation. -/
theorem C9_counterexample :
    update_task [exTaskA] 1 1 shortTitleUpdate =
      Except.ok (exTaskAShort, [exTaskAShort]) ∧
    exTaskAShort.title.length < 3 := by
  constructor
  · rfl
  · decide

/-- C9 amended: every task produced by the create operation has a title
of 3 to 54 characters (enforced by the TaskCreate validation); the
update operation does not enforce the constraint — TaskUpdate carries no
length bound — so a PATCH can leave a title outside 3 to 54. -/
theorem C9_amended_create_title_bounds
    (db : DB) (uid : Nat) (tc : TaskCreate) (newId : Nat) (t : Task)
    (db2 : DB)
    (h : create_task_for_user db uid tc newId = Except.ok (t, db2)) :
    3 ≤ t.title.length ∧ t.title.length ≤ 54 := by
  unfold create_task_for_user at h
  by_cases hv : validTitle tc.title = true
  · rw [if_pos hv] at h
    simp only [Except.ok.injEq, Prod.mk.injEq] at h
    obtain ⟨ht, _⟩ := h
    rw [← ht]
    dsimp only
    unfold validTitle at hv
    simp only [Bool.and_eq_true, decide_eq_true_eq] at hv
    exact hv
  · rw [if_neg hv] at h
    exact absurd h (by simp)

/-- C9 witness: the created "abc" task has a title within bounds. -/
theorem C9_witness :
    3 ≤ exTaskC.title.length ∧ exTaskC.title.length ≤ 54 :=
  C9_amended_create_title_bounds [] 7
    { title := "abc", description := none, status := TaskStatus.new } 1
    exTaskC [exTaskC] rfl

/-- C10: for every successful PATCH by the owner, fields omitted from
the request body keep their prior values, and neither the update
operation nor the complete operation changes the task id or user_id. -/
theorem C10_update_frame (db : DB) (uid tid : Nat) (u : TaskUpdate) :
    (∀ t t2 : Task, ∀ db2 : DB, dbGet db tid = some t →
      update_task db uid tid u = Except.ok (t2, db2) →
      t2.id = t.id ∧ t2.user_id = t.user_id ∧
      (u.title = Patch.unset → t2.title = t.title) ∧
      (u.description = Patch.unset → t2.description = t.description) ∧
      (u.status = Patch.unset → t2.status = t.status)) ∧
    (∀ t t3 : Task, ∀ db3 : DB, dbGet db tid = some t →
      complete_task db uid tid = Except.ok (t3, db3) →
      t3.id = t.id ∧ t3.user_id = t.user_id) := by
  constructor
  · intro t t2 db2 hg h
    unfold update_task at h
    rw [hg] at h
    dsimp only at h
    by_cases ho : (t.user_id != uid) = true
    · rw [if_pos ho] at h
      simp at h
    · rw [if_neg ho] at h
      cases ha : apply_task_update t u with
      | none => rw [ha] at h; simp at h
      | some t2x =>
        rw [ha] at h
        dsimp only at h
        simp only [Except.ok.injEq, Prod.mk.injEq] at h
        obtain ⟨ht, _⟩ := h
        subst ht
        exact apply_task_update_some ha
  · intro t t3 db3 hg h
    unfold complete_task at h
    rw [hg] at h
    dsimp only at h
    by_cases ho : (t.user_id != uid) = true
    · rw [if_pos ho] at h
      simp at h
    · rw [if_neg ho] at h
      simp only [Except.ok.injEq, Prod.mk.injEq] at h
      obtain ⟨ht, _⟩ := h
      rw [← ht]
      exact ⟨rfl, rfl⟩

/-- The PATCH body setting only the description. -/
def descUpdate : TaskUpdate :=
  { title := Patch.unset, description := Patch.given (some "milk"),
    status := Patch.unset }

/-- The task of exTaskA after the description PATCH. -/
def exTaskADesc : Task :=
  { id := 1, title := "abc", description := some "milk",
    status := TaskStatus.new, user_id := 1 }

/-- C10 witness: a PATCH touching only the description keeps the title
and the status, and changes neither id nor user_id. -/
theorem C10_witness :
    exTaskADesc.id = exTaskA.id ∧ exTaskADesc.user_id = exTaskA.user_id ∧
    (descUpdate.title = Patch.unset → exTaskADesc.title = exTaskA.title) ∧
    (descUpdate.description = Patch.unset →
      exTaskADesc.description = exTaskA.description) ∧
    (descUpdate.status = Patch.unset →
      exTaskADesc.status = exTaskA.status) :=
  (C10_update_frame [exTaskA] 1 1 descUpdate).1 exTaskA exTaskADesc
    [exTaskADesc] rfl rfl

end ToDoList
